import Mathlib

/-!
# Verification of the gdp-analysis-engine query/aggregation core

Shallow embedding of the engine's configuration sanitizer, wide→long
transformer, row filters and aggregator, translated from the Python source:

* `src/src/plugins/config_handler/handle.py` — `_sanitize_region`,
  `_sanitize_years`, `_sanitize_operation`, `_sanatize_query_config`
  (the clean sanitizer variant);
* `src/src/core/config_manager/config_handle.py` — `sanatize_query_config`
  (a near-duplicate iteration whose year-ordering comparison is performed on
  raw, possibly-`None` fields, and which assigns to fields of a frozen
  dataclass; both operations raise in Python, so this variant is embedded as
  an `Except` returning the Python exception class);
* `src/src/core/engine.py` — `transform`, `_filter_by_region`,
  `_filter_by_country`, `_filter_by_year`, `aggregate_all`, `run_pipeline`.

Python `Optional` values are `Option`, Python `int` is `Int`, numeric cell
values are `ℚ` (`Option ℚ` where a cell may be missing/NaN), and functions
that can raise return `Except`.
-/

/-- Python `str.lower()`: character-wise lower-casing (defined over the
character list so that it evaluates inside the kernel). -/
def pyLower (s : String) : String := ⟨s.data.map Char.toLower⟩

/-- Python `str.isdigit()` on ASCII strings: nonempty and all digits. This
is also the success condition of `astype(int)` on a year column name. -/
def pyIsDigit (s : String) : Bool :=
  !s.data.isEmpty && s.data.all Char.isDigit

/-- Python falsiness of a string (`if not s`): the empty string. -/
def pyStrFalsy (s : String) : Bool := s.data.isEmpty

/-- Python `int(s)` on an all-digit string. -/
def pyStrToInt (s : String) : Int :=
  (s.data.foldl (fun n c => 10 * n + (c.toNat - 48)) 0 : Nat)

/-- Query parameters, as in `QueryConfig`
(`src/src/plugins/config_handler/config_models.py`) and the structurally
identical `Filters` protocol (`src/src/core/contracts.py`): five independent
optional fields. -/
structure QueryConfig where
  region : Option String
  country : Option String
  startYear : Option Int
  endYear : Option Int
  operation : Option String
deriving DecidableEq, Repr

/-- `_sanitize_region(region, valid_regions)` from
`src/src/plugins/config_handler/handle.py` (lines 107–134).
Python `if not region` is true for `None` and for the empty string. -/
def sanitize_region : Option String → List String → Option String
  | none, _ => none
  | some r, valid_regions =>
    if pyStrFalsy r then none
    else if (valid_regions.map pyLower).contains (pyLower r) then some r
    else none

/-- `_sanitize_years(start, end, year_range)` from
`src/src/plugins/config_handler/handle.py` (lines 137–182): reset `start`
below `min_year` to `None`, reset `end` above `max_year` to `None`, then if
both survive and `end < start` reset both to `None`. -/
def sanitize_years (startY endY : Option Int) (year_range : Int × Int) :
    Option Int × Option Int :=
  let validated_start : Option Int :=
    match startY with
    | some s => if s < year_range.1 then none else some s
    | none => none
  let validated_end : Option Int :=
    match endY with
    | some e => if e > year_range.2 then none else some e
    | none => none
  match validated_start, validated_end with
  | some s, some e => if e < s then (none, none) else (some s, some e)
  | vs, ve => (vs, ve)

/-- `_sanitize_operation(operation)` from
`src/src/plugins/config_handler/handle.py` (lines 185–208). -/
def sanitize_operation : Option String → Option String
  | none => none
  | some op =>
    if pyStrFalsy op then none
    else if ["sum", "avg", "average"].contains (pyLower op) then some op
    else none

/-- `_sanatize_query_config(config, regions, year_range)` from
`src/src/plugins/config_handler/handle.py` (lines 211–243): sanitize region,
years and operation independently; `country` is passed through untouched by
the `dataclasses.replace` call. -/
def sanatize_query_config (config : QueryConfig) (regions : List String)
    (year_range : Int × Int) : QueryConfig :=
  let region := sanitize_region config.region regions
  let se := sanitize_years config.startYear config.endYear year_range
  let operation := sanitize_operation config.operation
  { config with
      region := region
      startYear := se.1
      endYear := se.2
      operation := operation }

/-- The Python exception classes the core sanitizer variant can raise. -/
inductive PyError where
  /-- `TypeError`: `<` applied with a `None` operand. -/
  | typeError : PyError
  /-- `FrozenInstanceError`: assignment to a field of a frozen dataclass. -/
  | frozenInstanceError : PyError
deriving DecidableEq, Repr

/-- Query config of the core `config_manager` package
(`src/src/core/config_manager/config_models.py`): a frozen dataclass with
four optional fields (no `country`). -/
structure CoreQueryConfig where
  region : Option String
  startYear : Option Int
  endYear : Option Int
  operation : Option String
deriving DecidableEq, Repr

/-- Python `a < b` on `Optional[int]`: raises `TypeError` when either
operand is `None`. -/
def pyLt : Option Int → Option Int → Except PyError Bool
  | some a, some b => .ok (a < b)
  | _, _ => .error .typeError

/-- `sanatize_query_config(config, regions, year_range)` from
`src/src/core/config_manager/config_handle.py` (lines 91–155).
The `validated_*` locals mirror the source; the ordering check
`config.endYear < config.startYear` is evaluated on the raw fields via
`pyLt` (TypeError when either is `None`), and when it is true the source
assigns to `config.startYear` — a field of a frozen dataclass — which
raises `FrozenInstanceError`. -/
def sanatize_query_config_core (config : CoreQueryConfig)
    (regions : List String) (year_range : Int × Int) :
    Except PyError CoreQueryConfig := do
  let validated_region : Option String :=
    match config.region with
    | some r =>
      if ¬ pyStrFalsy r ∧ ¬ (regions.map pyLower).contains (pyLower r)
      then none else some r
    | none => none
  let validated_startYear : Option Int :=
    match config.startYear with
    | some s => if s < year_range.1 then none else some s
    | none => none
  let validated_endYear : Option Int :=
    match config.endYear with
    | some e => if e > year_range.2 then none else some e
    | none => none
  let inverted ← pyLt config.endYear config.startYear
  if inverted then
    throw .frozenInstanceError
  else
    let validated_operation : Option String :=
      match config.operation with
      | some op =>
        if ¬ pyStrFalsy op ∧
            ¬ (["sum", "avg", "average"].contains (pyLower op))
        then none else some op
      | none => none
    pure { config with
            region := validated_region
            startYear := validated_startYear
            endYear := validated_endYear
            operation := validated_operation }

-- ### Sanitizer idempotence helper lemmas

theorem sanitize_region_idem (r : Option String) (regions : List String) :
    sanitize_region (sanitize_region r regions) regions =
      sanitize_region r regions := by
  rcases r with _ | s
  · rfl
  · simp only [sanitize_region]
    split_ifs with h1 h2
    · rfl
    · simp only [sanitize_region, if_neg h1, if_pos h2]
    · rfl

theorem sanitize_operation_idem (op : Option String) :
    sanitize_operation (sanitize_operation op) = sanitize_operation op := by
  rcases op with _ | s
  · rfl
  · simp only [sanitize_operation]
    split_ifs with h1 h2
    · rfl
    · simp only [sanitize_operation, if_neg h1, if_pos h2]
    · rfl

theorem sanitize_years_idem (startY endY : Option Int) (yr : Int × Int) :
    sanitize_years (sanitize_years startY endY yr).1
      (sanitize_years startY endY yr).2 yr = sanitize_years startY endY yr := by
  rcases startY with _ | s <;> rcases endY with _ | e
  · rfl
  · by_cases h : e > yr.2 <;> simp [sanitize_years, h]
  · by_cases h : s < yr.1 <;> simp [sanitize_years, h]
  · by_cases h1 : s < yr.1 <;> by_cases h2 : e > yr.2
    · simp [sanitize_years, h1, h2]
    · simp [sanitize_years, h1, h2]
    · simp [sanitize_years, h1, h2]
    · by_cases h3 : e < s <;> simp [sanitize_years, h1, h2, h3]

/-- C2: sanitizing an already-sanitized `QueryConfig` is a no-op:
`sanatize_query_config (sanatize_query_config f rs yr) rs yr
  = sanatize_query_config f rs yr` for all filters, region lists and year
ranges. -/
theorem sanatize_query_config_idempotent (f : QueryConfig)
    (regions : List String) (year_range : Int × Int) :
    sanatize_query_config (sanatize_query_config f regions year_range)
        regions year_range =
      sanatize_query_config f regions year_range := by
  simp only [sanatize_query_config]
  have hy := sanitize_years_idem f.startYear f.endYear year_range
  simp [sanitize_region_idem, sanitize_operation_idem, hy]

/-- C3: whenever both year bounds are present, each survives its individual
bounds check (`¬ startYear < minYear`, `¬ endYear > maxYear`) and
`endYear < startYear`, the sanitizer resets both year fields to `None`. -/
theorem sanitize_inverted_years_reset_both (f : QueryConfig)
    (regions : List String) (minY maxY s e : Int)
    (hs : f.startYear = some s) (he : f.endYear = some e)
    (hmin : ¬ s < minY) (hmax : ¬ e > maxY) (hlt : e < s) :
    (sanatize_query_config f regions (minY, maxY)).startYear = none ∧
      (sanatize_query_config f regions (minY, maxY)).endYear = none := by
  simp [sanatize_query_config, sanitize_years, hs, he, hmin, hmax, hlt]

/-- Witness for C3 at a concrete input: startYear 2000, endYear 1995 against
bounds (1990, 2025). -/
theorem sanitize_inverted_years_reset_both_witness :
    (sanatize_query_config
        ⟨some "Asia", none, some 2000, some 1995, some "sum"⟩
        ["Asia"] (1990, 2025)).startYear = none ∧
      (sanatize_query_config
        ⟨some "Asia", none, some 2000, some 1995, some "sum"⟩
        ["Asia"] (1990, 2025)).endYear = none :=
  sanitize_inverted_years_reset_both
    ⟨some "Asia", none, some 2000, some 1995, some "sum"⟩
    ["Asia"] 1990 2025 2000 1995 rfl rfl (by decide) (by decide) (by decide)

/-- C1: the core `sanatize_query_config` variant does **not** return
normally on every input: with `startYear = None` and `endYear = 2000`
(bounds (1990, 2025), so the individual checks pass) the raw comparison
`config.endYear < config.startYear` raises `TypeError`; and with both years
present but inverted (start 2000, end 1995, both in bounds) the assignment
to the frozen dataclass raises `FrozenInstanceError`. -/
theorem sanatize_query_config_core_raises :
    sanatize_query_config_core ⟨none, none, some 2000, none⟩
        ["Asia"] (1990, 2025) = .error .typeError ∧
      sanatize_query_config_core ⟨none, some 2000, some 1995, none⟩
        ["Asia"] (1990, 2025) = .error .frozenInstanceError := by
  constructor <;> rfl

-- ## The query engine (`src/src/core/engine.py`)

/-- One row of the long-format table produced by `transform`: the five
identifier columns plus integer `Year` and nullable numeric `Value`
(`none` models a NaN/missing cell). -/
structure LongRow where
  countryName : String
  continent : String
  indicatorName : String
  indicatorCode : String
  countryCode : String
  year : Int
  value : Option ℚ
deriving DecidableEq, Repr

/-- The identifier columns `transform` passes to `melt(id_vars=...)`
(`src/src/core/engine.py` lines 96–103). -/
def requiredIdCols : List String :=
  ["Country Name", "Continent", "Indicator Name", "Indicator Code",
   "Country Code"]

/-- One row of a wide-format table: identifier cell values aligned with the
table's `idCols` and year cell values aligned with its `yearCols`. -/
structure WideRowData where
  ids : List String
  cells : List (Option ℚ)
deriving DecidableEq, Repr

/-- A wide-format table: the identifier column names it actually has, the
remaining (year) column names, and its rows. -/
structure WideTable where
  idCols : List String
  yearCols : List String
  rows : List WideRowData
deriving DecidableEq, Repr

/-- Errors the engine pipeline can raise. `schemaError` models the pandas
`KeyError` raised by `melt` when one of the required identifier columns is
absent — the malformed-dataset failure; `valueError` models the
`ValueError` raised by `.astype(int)` when a melted column name is not a
numeral. -/
inductive EngineError where
  | schemaError : EngineError
  | valueError : EngineError
deriving DecidableEq, Repr

/-- The value of identifier column `c` in a row whose `ids` are aligned
with `idCols`. -/
def colValue (idCols : List String) (ids : List String) (c : String) :
    String :=
  match idCols.indexOf? c with
  | some i => ids.getD i ""
  | none => ""

/-- The melt step of `transform`: one long row per (year column, input row)
pair, stacked column by column exactly as `pandas.melt` stacks the value
columns, with `Year = int(columnName)`. -/
def meltRows (w : WideTable) : List LongRow :=
  w.yearCols.enum.flatMap fun jc =>
    w.rows.map fun r =>
      { countryName := colValue w.idCols r.ids "Country Name"
        continent := colValue w.idCols r.ids "Continent"
        indicatorName := colValue w.idCols r.ids "Indicator Name"
        indicatorCode := colValue w.idCols r.ids "Indicator Code"
        countryCode := colValue w.idCols r.ids "Country Code"
        year := pyStrToInt jc.2
        value := r.cells.getD jc.1 none }

/-- `transform(df)` from `src/src/core/engine.py` (lines 74–106):
`melt` over the five identifier columns (pandas raises `KeyError` when one
is absent) followed by `Year.astype(int)` (pandas raises `ValueError` when
a melted column name is not a numeral, i.e. not `String.isNat`). -/
def transform (w : WideTable) : Except EngineError (List LongRow) :=
  if requiredIdCols.all (fun c => w.idCols.contains c) then
    if w.yearCols.all pyIsDigit then
      .ok (meltRows w)
    else .error .valueError
  else .error .schemaError

/-- `_filter_by_region(df, region)` (lines 109–131): `None` is a no-op
copy, otherwise case-insensitive equality on the `Continent` column. -/
def filter_by_region (df : List LongRow) : Option String → List LongRow
  | none => df
  | some region =>
    df.filter fun row => pyLower row.continent = pyLower region

/-- `_filter_by_country(df, country)` (lines 134–156): `None` is a no-op
copy, otherwise case-insensitive equality on the `Country Name` column. -/
def filter_by_country (df : List LongRow) : Option String → List LongRow
  | none => df
  | some country =>
    df.filter fun row => pyLower row.countryName = pyLower country

/-- `_filter_by_year(df, start, end)` (lines 159–204): both bounds → rows
with `Year.between(start, end)` (inclusive); only `start` → exact match on
`start`; only `end` → exact match on `end`; neither → no-op copy. -/
def filter_by_year (df : List LongRow) :
    Option Int → Option Int → List LongRow
  | none, none => df
  | some s, none => df.filter fun row => row.year = s
  | none, some e => df.filter fun row => row.year = e
  | some s, some e => df.filter fun row => s ≤ row.year ∧ row.year ≤ e

/-- `dropna(subset=["Value"])`: keep the rows whose `Value` is non-null. -/
def dropNullValue (df : List LongRow) : List LongRow :=
  df.filter fun row => row.value.isSome

/-- The grouping key of `aggregate_all`, i.e. its `group_cols` list
`["Country Name", "Country Code", "Indicator Name", "Indicator Code",
"Continent"]` (lines 299–305). -/
structure GroupKey where
  countryName : String
  countryCode : String
  indicatorName : String
  indicatorCode : String
  continent : String
deriving DecidableEq, Repr

/-- The grouping key of one long row. -/
def groupKey (r : LongRow) : GroupKey :=
  ⟨r.countryName, r.countryCode, r.indicatorName, r.indicatorCode,
   r.continent⟩

/-- The key fields in `group_cols` order. -/
def keyList (k : GroupKey) : List String :=
  [k.countryName, k.countryCode, k.indicatorName, k.indicatorCode,
   k.continent]

/-- Code-point comparison of two strings (as Python compares `str`). -/
def strCmp : List Char → List Char → Ordering
  | [], [] => .eq
  | [], _ :: _ => .lt
  | _ :: _, [] => .gt
  | a :: as, b :: bs =>
    if a.toNat < b.toNat then .lt
    else if b.toNat < a.toNat then .gt
    else strCmp as bs

/-- Lexicographic comparison of string lists. -/
def strListLe : List String → List String → Bool
  | [], _ => true
  | _ :: _, [] => false
  | a :: as, b :: bs =>
    match strCmp a.data b.data with
    | .lt => true
    | .gt => false
    | .eq => strListLe as bs

/-- Lexicographic comparison of group keys in `group_cols` order. -/
def keyLe (a b : GroupKey) : Bool := strListLe (keyList a) (keyList b)

/-- Insertion into a `keyLe`-sorted list. -/
def insertKey (k : GroupKey) : List GroupKey → List GroupKey
  | [] => [k]
  | a :: as => if keyLe k a then k :: a :: as else a :: insertKey k as

/-- Insertion sort by `keyLe`, modelling the ascending group-key order of
`pandas.groupby(sort=True)` result rows. -/
def sortKeys (l : List GroupKey) : List GroupKey := l.foldr insertKey []

/-- Deduplicated key list (each distinct key once; the subsequent sort
makes the retained occurrence irrelevant). -/
def dedupKeys : List GroupKey → List GroupKey
  | [] => []
  | k :: ks =>
    if (dedupKeys ks).contains k then dedupKeys ks else k :: dedupKeys ks

/-- The distinct grouping keys of a long table, in the sorted order
`pandas.groupby` emits its groups. -/
def groupKeys (df : List LongRow) : List GroupKey :=
  sortKeys (dedupKeys (df.map groupKey))

/-- The `Value` cells of group `k`, nulls skipped as pandas group
aggregations do (`skipna`). -/
def groupValues (df : List LongRow) (k : GroupKey) : List ℚ :=
  (df.filter fun r => groupKey r = k).filterMap (·.value)

/-- pandas `GroupBy.sum` on one group: sum of the non-null values, `0`
when all are null. -/
def sumAgg (vs : List ℚ) : Option ℚ := some vs.sum

/-- pandas `GroupBy.mean` on one group: mean of the non-null values, NaN
(`none`) when all are null. -/
def meanAgg (vs : List ℚ) : Option ℚ :=
  if vs.isEmpty then none else some (vs.sum / vs.length)

/-- One row of the grouped result of `aggregate_all`: the grouping columns,
the aggregated `Value`, and the added `Operation` column. -/
structure AggRow where
  key : GroupKey
  value : Option ℚ
  operation : String
deriving DecidableEq, Repr

/-- Result of `aggregate_all`: either the grouped table (with its added
`Operation` column) or the unchanged, ungrouped input table when the
operation string is unrecognized. -/
inductive AggResult where
  | grouped : List AggRow → AggResult
  | passthrough : List LongRow → AggResult
deriving DecidableEq, Repr

/-- `groupby(group_cols, as_index=False)["Value"]` followed by the given
reduction and `assign(Operation=label)`. -/
def groupAgg (df : List LongRow) (agg : List ℚ → Option ℚ)
    (label : String) : List AggRow :=
  (groupKeys df).map fun k => ⟨k, agg (groupValues df k), label⟩

/-- `aggregate_all(df, operation)` from `src/src/core/engine.py`
(lines 270–328): `None` defaults to "avg"; the operation is lower-cased;
"sum" → grouped sum labelled "Sum"; "avg"/"average" → grouped mean
labelled "Average"; anything else returns the input unchanged. -/
def aggregate_all (df : List LongRow) (operation : Option String) :
    AggResult :=
  let op := pyLower (operation.getD "avg")
  if op = "sum" then .grouped (groupAgg df sumAgg "Sum")
  else if op = "avg" ∨ op = "average" then
    .grouped (groupAgg df meanAgg "Average")
  else .passthrough df

/-- What `run_pipeline` returns on success: the filtered long table when
`inLongFormat` is set, otherwise the aggregation result. -/
inductive PipelineOutput where
  | long : List LongRow → PipelineOutput
  | agg : AggResult → PipelineOutput
deriving DecidableEq, Repr

/-- `run_pipeline(df, filters, inLongFormat)` from `src/src/core/engine.py`
(lines 417–456): transform → region filter → country filter → year filter →
drop null `Value` → aggregate (skipped when `inLongFormat`). A transform
failure propagates to the caller. -/
def run_pipeline (w : WideTable) (filters : QueryConfig)
    (inLongFormat : Bool) : Except EngineError PipelineOutput :=
  (transform w).map fun longDf =>
    let filtered :=
      dropNullValue
        (filter_by_year
          (filter_by_country (filter_by_region longDf filters.region)
            filters.country)
          filters.startYear filters.endYear)
    if inLongFormat then .long filtered
    else .agg (aggregate_all filtered filters.operation)

-- ### Engine theorems

/-- C4: on a wide table that has all required identifier columns and whose
remaining columns are all-digit (year) column names, `transform` succeeds
and the long result has exactly `n * k` rows, for `n` input rows and `k`
year columns. -/
theorem transform_row_count (w : WideTable)
    (hid : (requiredIdCols.all fun c => w.idCols.contains c) = true)
    (hyear : (w.yearCols.all pyIsDigit) = true) :
    transform w = .ok (meltRows w) ∧
      (meltRows w).length = w.rows.length * w.yearCols.length := by
  constructor
  · simp only [transform]
    rw [hid, hyear]
    rfl
  · simp [meltRows, List.length_flatMap, Function.comp_def, List.map_const,
      Nat.mul_comm]

/-- A concrete one-row wide table with two year columns. -/
def sampleWide : WideTable :=
  { idCols := requiredIdCols
    yearCols := ["2000", "2001"]
    rows := [⟨["Albania", "Europe", "GDP", "NY.GDP.MKTP.CD", "ALB"],
              [some 100, some 110]⟩] }

/-- Witness for C4 at `sampleWide`: 1 row × 2 year columns → 2 long rows. -/
theorem transform_row_count_witness :
    transform sampleWide = .ok (meltRows sampleWide) ∧
      (meltRows sampleWide).length =
        sampleWide.rows.length * sampleWide.yearCols.length :=
  transform_row_count sampleWide (by decide) (by decide)

/-- C5: when some required identifier column is absent from the wide table,
`transform` fails with the schema error, and `run_pipeline` propagates that
same error to its caller for every filter configuration, in long-format and
aggregating mode alike. -/
theorem transform_missing_id_schema_error (w : WideTable)
    (h : (requiredIdCols.all fun c => w.idCols.contains c) = false) :
    transform w = .error .schemaError ∧
      ∀ filters inLongFormat,
        run_pipeline w filters inLongFormat = .error .schemaError := by
  have ht : transform w = .error .schemaError := by
    simp only [transform]
    rw [h]
    rfl
  exact ⟨ht, fun filters inLongFormat => by
    simp [run_pipeline, ht, Except.map]⟩

/-- A wide table missing the `Continent` identifier column. -/
def sampleWideNoContinent : WideTable :=
  { idCols := ["Country Name", "Indicator Name", "Indicator Code",
               "Country Code"]
    yearCols := ["2000"]
    rows := [⟨["Albania", "GDP", "NY.GDP.MKTP.CD", "ALB"], [some 100]⟩] }

/-- Witness for C5 at `sampleWideNoContinent`. -/
theorem transform_missing_id_schema_error_witness :
    transform sampleWideNoContinent = .error .schemaError ∧
      run_pipeline sampleWideNoContinent
        ⟨some "Asia", none, some 2000, some 2001, some "sum"⟩ false =
        .error .schemaError :=
  ⟨(transform_missing_id_schema_error sampleWideNoContinent (by decide)).1,
   (transform_missing_id_schema_error sampleWideNoContinent (by decide)).2
     ⟨some "Asia", none, some 2000, some 2001, some "sum"⟩ false⟩

/-- C6: filtering by a region and then by a year range yields the same rows
as filtering by the year range first and by the region second, for every
long table, region string and (startYear, endYear) combination. -/
theorem region_year_filter_commute (df : List LongRow) (region : String)
    (startY endY : Option Int) :
    filter_by_year (filter_by_region df (some region)) startY endY =
      filter_by_region (filter_by_year df startY endY) (some region) := by
  rcases startY with _ | s <;> rcases endY with _ | e <;>
    simp [filter_by_year, filter_by_region, List.filter_filter,
      Bool.and_comm]

/-- C7: the year filter keeps exactly the rows the spec says: both bounds →
`Year` in the inclusive range; only `startYear` → `Year` equal to it; only
`endYear` → `Year` equal to it; neither → the whole table unchanged. -/
theorem filter_by_year_spec (df : List LongRow) :
    (∀ s e r, r ∈ filter_by_year df (some s) (some e) ↔
        r ∈ df ∧ s ≤ r.year ∧ r.year ≤ e) ∧
      (∀ s r, r ∈ filter_by_year df (some s) none ↔ r ∈ df ∧ r.year = s) ∧
      (∀ e r, r ∈ filter_by_year df none (some e) ↔ r ∈ df ∧ r.year = e) ∧
      filter_by_year df none none = df := by
  refine ⟨?_, ?_, ?_, rfl⟩ <;> intros <;>
    simp [filter_by_year, List.mem_filter, and_assoc]

/-- C8: for every operation string whose lower-casing is none of "sum",
"avg", "average", `aggregate_all` returns the input table unchanged and
ungrouped — the `passthrough` result, which carries no `Operation`
column — instead of failing. -/
theorem aggregate_all_unknown_op (df : List LongRow) (op : String)
    (h1 : pyLower op ≠ "sum") (h2 : pyLower op ≠ "avg")
    (h3 : pyLower op ≠ "average") :
    aggregate_all df (some op) = .passthrough df := by
  simp [aggregate_all, h1, h2, h3]

/-- Witness for C8: operation "median" on a one-row table is returned
unchanged. -/
theorem aggregate_all_unknown_op_witness :
    aggregate_all [⟨"Albania", "Europe", "GDP", "NY.GDP.MKTP.CD", "ALB",
        2000, some 100⟩] (some "median") =
      .passthrough [⟨"Albania", "Europe", "GDP", "NY.GDP.MKTP.CD", "ALB",
        2000, some 100⟩] :=
  aggregate_all_unknown_op _ "median" (by decide) (by decide) (by decide)

/-- A one-row long table whose single `Value` is null, on which the sum
aggregate (0) and the mean aggregate (NaN) differ, as do the `Operation`
labels "Sum" and "Average". -/
def sampleNullRow : List LongRow :=
  [⟨"Albania", "Europe", "GDP", "NY.GDP.MKTP.CD", "ALB", 2000, none⟩]

/-- C9 counterexample: `sampleNullRow` has exactly one row in its single
group, yet `aggregate_all` with "sum" and with "avg" give different result
tables: values `0` vs NaN, and `Operation` labels "Sum" vs "Average". -/
theorem aggregate_sum_avg_differ :
    aggregate_all sampleNullRow (some "sum") ≠
      aggregate_all sampleNullRow (some "avg") := by
  decide

/-- The grouping columns and the `Value` column of an aggregation result,
without the `Operation` label. -/
def aggKeyValues : AggResult → List (GroupKey × Option ℚ)
  | .grouped rows => rows.map fun r => (r.key, r.value)
  | .passthrough df => df.map fun r => (groupKey r, r.value)

/-- C9 amended: when every group of the full identifier tuple has exactly
one row and every `Value` is non-null, `aggregate_all df "sum"` and
`aggregate_all df "avg"` agree on the grouping columns and the `Value`
column (only their `Operation` labels differ). -/
theorem aggregate_sum_avg_agree_on_values (df : List LongRow)
    (h1 : ∀ k ∈ groupKeys df,
      (df.filter fun r => groupKey r = k).length = 1)
    (h2 : ∀ r ∈ df, r.value.isSome = true) :
    aggKeyValues (aggregate_all df (some "sum")) =
      aggKeyValues (aggregate_all df (some "avg")) := by
  have hsum : aggregate_all df (some "sum") =
      .grouped (groupAgg df sumAgg "Sum") := by
    simp only [aggregate_all, Option.getD]
    rw [if_pos (show pyLower "sum" = "sum" from by decide)]
  have havg : aggregate_all df (some "avg") =
      .grouped (groupAgg df meanAgg "Average") := by
    simp only [aggregate_all, Option.getD]
    rw [if_neg (show ¬ pyLower "avg" = "sum" from by decide),
      if_pos (Or.inl (show pyLower "avg" = "avg" from by decide))]
  rw [hsum, havg]
  simp only [aggKeyValues, groupAgg, List.map_map, Function.comp_def]
  refine List.map_congr_left fun k hk => ?_
  obtain ⟨r, hr⟩ := List.length_eq_one.mp (h1 k hk)
  have hrmem : r ∈ df := by
    have : r ∈ df.filter fun r => groupKey r = k := by
      rw [hr]; exact List.mem_singleton_self r
    exact List.mem_of_mem_filter this
  obtain ⟨v, hv⟩ := Option.isSome_iff_exists.mp (h2 r hrmem)
  have hgv : groupValues df k = [v] := by
    simp [groupValues, hr, hv]
  simp [hgv, sumAgg, meanAgg]

/-- A one-row long table with a non-null `Value`. -/
def sampleOneRow : List LongRow :=
  [⟨"Albania", "Europe", "GDP", "NY.GDP.MKTP.CD", "ALB", 2000, some 100⟩]

/-- Witness for the amended C9 at `sampleOneRow`. -/
theorem aggregate_sum_avg_agree_on_values_witness :
    aggKeyValues (aggregate_all sampleOneRow (some "sum")) =
      aggKeyValues (aggregate_all sampleOneRow (some "avg")) :=
  aggregate_sum_avg_agree_on_values sampleOneRow (by decide) (by decide)

/-- C10: calling `aggregate_all` with `operation = None` does not hit the
unrecognized-operation pass-through: it groups by the full identifier
tuple, reduces `Value` by mean, labels the `Operation` column "Average",
and equals `aggregate_all df "avg"` exactly. -/
theorem aggregate_all_none_defaults_to_avg (df : List LongRow) :
    aggregate_all df none = .grouped (groupAgg df meanAgg "Average") ∧
      aggregate_all df none = aggregate_all df (some "avg") := by
  constructor
  · simp only [aggregate_all, Option.getD]
    rw [if_neg (show ¬ pyLower "avg" = "sum" from by decide),
      if_pos (Or.inl (show pyLower "avg" = "avg" from by decide))]
  · rfl
